import Mathlib

/-!
Shallow embedding of `src/main.c` (safe use of vfork from a multi-threaded
program).  The single translation unit defines `run_thread` (the Spawner
thread body, containing both the parent continuation and the child
continuation of the `vfork` call) and `main` (the Coordinator).

OS behaviour (success or failure of `sigaction`, `vfork`, `execve`,
`waitpid`, `pthread_create`, `pthread_join`, and the dispositions installed
before the spawn) is modelled by explicit oracle structures (`ChildOS`,
`SpawnerOS`, `MainOS`); the embedding is a deterministic function of the
oracle, mirroring the C control flow statement by statement.
-/

namespace SafeVfork

/-- glibc `NSIG` on Linux: the child's reset loop runs `for (i = 0; i < NSIG; i++)`. -/
def NSIG : Nat := 65

/-- Linux `EINVAL` errno value, the one `errno` tolerated by the reset loop. -/
def EINVAL : Nat := 22

/-- stdlib `EXIT_SUCCESS`. -/
def EXIT_SUCCESS : Nat := 0

/-- stdlib `EXIT_FAILURE`. -/
def EXIT_FAILURE : Nat := 1

/-- A signal set (`sigset_t`), modelled as the list of blocked signal numbers. -/
abbrev SigSet := List Nat

/-- Result of `sigfillset (&signal_mask)`: every signal number blocked. -/
def fillMask : SigSet := List.range NSIG

/-- Effect of `pthread_sigmask (SIG_BLOCK, add, ...)` on the current mask: union. -/
def sigBlock (cur add : SigSet) : SigSet := cur ++ add

/-- A signal disposition (`sa_handler`): `SIG_DFL`, `SIG_IGN`, or a custom handler
    distinguished by an abstract code. -/
inductive Handler
  | SIG_DFL
  | SIG_IGN
  | custom (h : Nat)
  deriving DecidableEq, Repr

/-- Oracle for the OS behaviour seen by the child continuation:
    whether `sigemptyset` succeeds, which `sigaction` queries succeed,
    the dispositions in place when the child starts, the outcome of each
    `sigaction (i, &newsa, NULL)` call (`none` = success, `some e` = failure
    with `errno = e`), and whether `execve` succeeds. -/
structure ChildOS where
  sigemptyset_ok : Bool
  queryOk : Nat → Bool
  disp : Nat → Handler
  setErr : Nat → Option Nat
  execOk : Bool

/-- One iteration of the child's reset loop, for signal `i`
    (src/main.c lines 140-160): query the disposition; if the query fails,
    skip; if the disposition is neither `SIG_IGN` nor `SIG_DFL`, try to set
    it to `SIG_DFL`; a set failure with `errno = EINVAL` is skipped, any
    other set failure is fatal (`none` here models `_exit (2)`). -/
def sigStep (os : ChildOS) (d : Nat → Handler) (i : Nat) : Option (Nat → Handler) :=
  if os.queryOk i = true then
    if d i ≠ Handler.SIG_IGN ∧ d i ≠ Handler.SIG_DFL then
      if os.setErr i = none then some (fun j => if j = i then Handler.SIG_DFL else d j)
      else if os.setErr i = some EINVAL then some d
      else none
    else some d
  else some d

/-- The child's reset loop over a list of signal numbers, threading the
    disposition state; the second component is `some 2` when the loop
    aborted via `_exit (2)`, `none` when it ran to completion. -/
def resetLoop (os : ChildOS) : List Nat → (Nat → Handler) → ((Nat → Handler) × Option Nat)
  | [], d => (d, none)
  | i :: rest, d =>
    match sigStep os d i with
    | some d1 => resetLoop os rest d1
    | none => (d, some 2)

/-- Terminal state of the child continuation: the image was replaced by
    `execve`, or the child called `_exit` with a code. -/
inductive ChildResult
  | Replaced
  | TerminatedWithCode (c : Nat)
  deriving DecidableEq, Repr

/-- Observables of one run of the child continuation: its terminal state, the
    signal dispositions at that point, and the child's signal mask at that
    point. -/
structure ChildRun where
  result : ChildResult
  finalDisp : Nat → Handler
  finalMask : SigSet

/-- Tail of the child continuation after the reset loop completed (src/main.c
    lines 162-177): the inherited mask was restored to `old_mask` (line 162),
    then `execve` runs, with `_exit (3)` on its failure. -/
def execTail (os : ChildOS) (d1 : Nat → Handler) (old_mask : SigSet) : ChildRun :=
  if os.execOk = true then
    { result := ChildResult.Replaced, finalDisp := d1, finalMask := old_mask }
  else
    { result := ChildResult.TerminatedWithCode 3, finalDisp := d1, finalMask := old_mask }

/-- The child continuation of `vfork` (src/main.c lines 125-178): build the
    `SIG_DFL` template (`_exit (1)` if `sigemptyset` fails), run the reset
    loop over `0 ≤ i < NSIG`, restore the inherited `old_signal_mask`, then
    `execve`; `_exit (3)` if `execve` fails.  `old_mask` is the mask the
    Spawner captured before blocking, `blocked` is the all-blocked mask the
    child starts under. -/
def runChild (os : ChildOS) (old_mask blocked : SigSet) : ChildRun :=
  if os.sigemptyset_ok = false then
    { result := ChildResult.TerminatedWithCode 1, finalDisp := os.disp, finalMask := blocked }
  else
    match resetLoop os (List.range NSIG) os.disp with
    | (d1, some c) =>
      { result := ChildResult.TerminatedWithCode c, finalDisp := d1, finalMask := blocked }
    | (d1, none) => execTail os d1 old_mask

/-- Decoded wait status, §3 of the spec: `Exited(code)` or `Signaled(signal)`. -/
inductive ExitStatus
  | Exited (code : Nat)
  | Signaled (signal : Nat)
  deriving DecidableEq, Repr

/-- glibc `bits/waitstatus.h`: `__WTERMSIG (status) = status & 0x7f`. -/
def wtermsig (s : Nat) : Nat := s % 128

/-- glibc `bits/waitstatus.h`: `__WIFEXITED (status) = (__WTERMSIG (status) == 0)`. -/
def wifexited (s : Nat) : Bool := wtermsig s = 0

/-- glibc `bits/waitstatus.h`: `__WEXITSTATUS (status) = (status & 0xff00) >> 8`. -/
def wexitstatus (s : Nat) : Nat := (s / 256) % 256

/-- glibc `bits/waitstatus.h`:
    `__WIFSIGNALED (status) = ((signed char) ((status & 0x7f) + 1) >> 1) > 0`;
    the cast to `signed char` wraps 128 to -128 before the arithmetic shift. -/
def wifsignaled (s : Nat) : Bool :=
  decide (0 < (if s % 128 + 1 < 128 then ((s % 128 + 1 : Nat) : Int)
               else ((s % 128 + 1 : Nat) : Int) - 256) / 2)

/-- Modelled from the spec: the Linux kernel's raw wait status for a child
    that terminated normally via `_exit (c)` (`"Exited(code)"` with
    `0 ≤ code ≤ 255`): the low 8 bits of the code in bits 8-15. -/
def encodeExit (c : Nat) : Nat := (c % 256) * 256

/-- Modelled from the spec: the Linux kernel's raw wait status for a child
    terminated by signal `s` (`"Signaled(signal_number)"`): the signal number
    in the low 7 bits. -/
def encodeSignaled (s : Nat) : Nat := s % 128

/-- The status-decoding step of src/main.c lines 205-212: what the Spawner
    reports from the raw wait status (`none` when the status is neither a
    normal exit nor a termination by signal, in which case nothing is
    printed). -/
def decodeStatus (s : Nat) : Option ExitStatus :=
  if wifexited s = true then some (ExitStatus.Exited (wexitstatus s))
  else if wifsignaled s = true then some (ExitStatus.Signaled (wtermsig s))
  else none

/-- Observable events of the Spawner thread body, in program order. -/
inductive Event
  | maskBlockAll
  | vforkEv
  | maskRestore
  | waitpidEv (pid : Nat)
  | perrorVfork
  | perrorWait
  | printEv (st : ExitStatus)
  | exitEv (c : Nat)
  deriving DecidableEq, Repr

/-- Oracle for the OS behaviour seen by the Spawner thread: whether `vfork`
    succeeds, the child-side oracle, the pid handed back on success, the raw
    wait status of the target program when the `execve` succeeded, and
    whether `waitpid` succeeds. -/
structure SpawnerOS where
  vforkOk : Bool
  childOS : ChildOS
  childPid : Nat
  execedStatus : Nat
  waitOk : Bool

/-- Raw status `waitpid` stores for this spawn: the `_exit` encoding when the
    child terminated with a reserved code, or the target program's own status
    when the image was replaced. -/
def waitStatus (os : SpawnerOS) (cr : ChildRun) : Nat :=
  match cr.result with
  | ChildResult.TerminatedWithCode c => encodeExit c
  | ChildResult.Replaced => os.execedStatus

/-- Print events of src/main.c lines 205-212. -/
def printEvents (s : Nat) : List Event :=
  if wifexited s = true then [Event.printEv (ExitStatus.Exited (wexitstatus s))]
  else if wifsignaled s = true then [Event.printEv (ExitStatus.Signaled (wtermsig s))]
  else []

/-- Terminal state of the Spawner thread body: `vfork` failed (the thread
    called `exit (EXIT_FAILURE)`), `waitpid` failed (likewise), or the thread
    reached `return NULL` having possibly printed a decoded status. -/
inductive SpawnerOutcome
  | SpawnFailed
  | WaitFailed
  | Done (report : Option ExitStatus)
  deriving DecidableEq, Repr

/-- Observables of one run of the Spawner thread body: the terminal state,
    the thread's signal mask at that point, the child continuation's run and
    pid when `vfork` succeeded, the `void *` value returned through
    `pthread_join` (the code only ever returns `NULL`, i.e. `none`), and the
    event trace. -/
structure SpawnerResult where
  outcome : SpawnerOutcome
  finalMask : SigSet
  childRun : Option ChildRun
  childPid : Option Nat
  retval : Option ExitStatus
  trace : List Event

/-- The Spawner thread body `run_thread` (src/main.c lines 60-216):
    `sigfillset` + `pthread_sigmask (SIG_BLOCK, ...)` capturing
    `old_signal_mask`, then `vfork`; on `child == -1` restore the mask,
    `perror`, `exit (EXIT_FAILURE)`; otherwise the child continuation runs
    (`runChild`), the parent resumes, restores the mask, calls `waitpid`
    (on failure `perror` + `exit (EXIT_FAILURE)`), decodes and prints the
    status, and returns `NULL`.  `initMask` is the thread's signal mask on
    entry. -/
def run_thread (os : SpawnerOS) (initMask : SigSet) : SpawnerResult :=
  let old_signal_mask := initMask
  let blocked := sigBlock initMask fillMask
  if os.vforkOk = false then
    { outcome := SpawnerOutcome.SpawnFailed
      finalMask := old_signal_mask
      childRun := none
      childPid := none
      retval := none
      trace := [Event.maskBlockAll, Event.vforkEv, Event.maskRestore,
                Event.perrorVfork, Event.exitEv EXIT_FAILURE] }
  else
    let cr := runChild os.childOS old_signal_mask blocked
    if os.waitOk = false then
      { outcome := SpawnerOutcome.WaitFailed
        finalMask := old_signal_mask
        childRun := some cr
        childPid := some os.childPid
        retval := none
        trace := [Event.maskBlockAll, Event.vforkEv, Event.maskRestore,
                  Event.waitpidEv os.childPid, Event.perrorWait,
                  Event.exitEv EXIT_FAILURE] }
    else
      { outcome := SpawnerOutcome.Done (decodeStatus (waitStatus os cr))
        finalMask := old_signal_mask
        childRun := some cr
        childPid := some os.childPid
        retval := none
        trace := [Event.maskBlockAll, Event.vforkEv, Event.maskRestore,
                  Event.waitpidEv os.childPid] ++ printEvents (waitStatus os cr) }

/-- Observable events of the Coordinator (`main`), in program order. -/
inductive MEvent
  | createEv
  | createErrMsg
  | joinEv
  | joinErrMsg
  deriving DecidableEq, Repr

/-- Oracle for the OS behaviour seen by the Coordinator: whether
    `pthread_create` succeeds, the Spawner-side oracle and the thread's
    initial signal mask, and whether `pthread_join` succeeds. -/
structure MainOS where
  createOk : Bool
  spawner : SpawnerOS
  initMask : SigSet
  joinOk : Bool

/-- Observables of one run of the whole process: its exit code, the
    Coordinator's event trace, and the Spawner thread's run when the thread
    was created. -/
structure MainResult where
  exitCode : Nat
  trace : List MEvent
  threadResult : Option SpawnerResult

/-- The Coordinator `main` (src/main.c lines 218-251): `pthread_create`
    (failure: report + `exit (EXIT_FAILURE)`), then `pthread_join` (failure:
    report + `exit (EXIT_FAILURE)`), then `exit (EXIT_SUCCESS)`.  When the
    Spawner thread itself calls `exit (EXIT_FAILURE)` (`SpawnFailed` or
    `WaitFailed`), the whole process terminates with `EXIT_FAILURE` and the
    join never completes. -/
def main_run (os : MainOS) : MainResult :=
  if os.createOk = false then
    { exitCode := EXIT_FAILURE
      trace := [MEvent.createEv, MEvent.createErrMsg]
      threadResult := none }
  else
    let r := run_thread os.spawner os.initMask
    match r.outcome with
    | SpawnerOutcome.SpawnFailed =>
      { exitCode := EXIT_FAILURE, trace := [MEvent.createEv], threadResult := some r }
    | SpawnerOutcome.WaitFailed =>
      { exitCode := EXIT_FAILURE, trace := [MEvent.createEv], threadResult := some r }
    | SpawnerOutcome.Done _ =>
      if os.joinOk = false then
        { exitCode := EXIT_FAILURE
          trace := [MEvent.createEv, MEvent.joinEv, MEvent.joinErrMsg]
          threadResult := some r }
      else
        { exitCode := EXIT_SUCCESS
          trace := [MEvent.createEv, MEvent.joinEv]
          threadResult := some r }

/-- Does an event restore the saved signal mask
    (`pthread_sigmask (SIG_SETMASK, &old_signal_mask, NULL)`)? -/
def isRestoreEv : Event → Bool
  | Event.maskRestore => true
  | _ => false

/-- Is an event a `waitpid` call? -/
def isWaitEv : Event → Bool
  | Event.waitpidEv _ => true
  | _ => false

/-- Is an event a `pthread_create` call? -/
def isCreateEv : MEvent → Bool
  | MEvent.createEv => true
  | _ => false

/-- Is an event a `pthread_join` call? -/
def isJoinEv : MEvent → Bool
  | MEvent.joinEv => true
  | _ => false

/-- Number of mask restorations in a Spawner trace. -/
def countRestore (t : List Event) : Nat := (t.filter isRestoreEv).length

/-- Number of `waitpid` calls in a Spawner trace. -/
def countWait (t : List Event) : Nat := (t.filter isWaitEv).length

/-- Number of `pthread_create` calls in a Coordinator trace. -/
def countCreate (t : List MEvent) : Nat := (t.filter isCreateEv).length

/-- Number of `pthread_join` calls in a Coordinator trace. -/
def countJoin (t : List MEvent) : Nat := (t.filter isJoinEv).length

/-- The benign-skip/fatal discriminant of the reset loop, read off the oracle:
    signal `i` is fatal when its query succeeds, its disposition is a custom
    handler (neither `SIG_IGN` nor `SIG_DFL`), and setting it to `SIG_DFL`
    fails with an errno other than `EINVAL`. -/
def FatalAt (os : ChildOS) (d : Nat → Handler) (i : Nat) : Prop :=
  os.queryOk i = true ∧ d i ≠ Handler.SIG_IGN ∧ d i ≠ Handler.SIG_DFL ∧
    os.setErr i ≠ none ∧ os.setErr i ≠ some EINVAL

instance (os : ChildOS) (d : Nat → Handler) (i : Nat) : Decidable (FatalAt os d i) := by
  unfold FatalAt; infer_instance

/-- Sample child-side oracle for concrete evaluations: the query for signal 0
    fails (0 is not a valid signal number), signals 9 and 10 carry custom
    handlers, signal 17 is `SIG_IGN`, setting signal 9 fails with `EINVAL`
    (an unchangeable signal), every other set succeeds, `execve` succeeds. -/
def demoChildOS : ChildOS :=
  { sigemptyset_ok := true
    queryOk := fun i => decide (0 < i)
    disp := fun i =>
      if i = 9 then Handler.custom 3
      else if i = 10 then Handler.custom 7
      else if i = 17 then Handler.SIG_IGN
      else Handler.SIG_DFL
    setErr := fun i => if i = 9 then some EINVAL else none
    execOk := true }

/-- Sample child-side oracle where the disposition query for signal 10 fails
    while everything else succeeds. -/
def queryFailOS : ChildOS :=
  { sigemptyset_ok := true
    queryOk := fun i => decide (i ≠ 10)
    disp := fun i => if i = 10 then Handler.custom 7 else Handler.SIG_DFL
    setErr := fun _ => none
    execOk := true }

/-- Sample child-side oracle where `sigemptyset` fails. -/
def emptySetFailOS : ChildOS :=
  { demoChildOS with sigemptyset_ok := false }

/-- Sample child-side oracle where resetting signal 10 (a custom handler)
    fails with `errno = 13`, which is not `EINVAL`. -/
def setFatalOS : ChildOS :=
  { sigemptyset_ok := true
    queryOk := fun i => decide (0 < i)
    disp := fun i => if i = 10 then Handler.custom 7 else Handler.SIG_DFL
    setErr := fun i => if i = 10 then some 13 else none
    execOk := true }

/-- Sample initial Spawner mask: SIGINT and SIGTERM blocked on entry. -/
def demoMask : SigSet := [2, 15]

/-- Sample Spawner-side oracle: everything succeeds, the target program exits
    normally with code 0. -/
def demoSpawnerOS : SpawnerOS :=
  { vforkOk := true
    childOS := demoChildOS
    childPid := 1234
    execedStatus := encodeExit 0
    waitOk := true }

/-- Sample Coordinator-side oracle: everything succeeds. -/
def demoMainOS : MainOS :=
  { createOk := true
    spawner := demoSpawnerOS
    initMask := demoMask
    joinOk := true }

/-- Sample Spawner-side oracle where `vfork` fails. -/
def spawnFailOS : SpawnerOS :=
  { demoSpawnerOS with vforkOk := false }

/-- Sample Coordinator-side oracle over the failing-`vfork` Spawner. -/
def spawnFailMainOS : MainOS :=
  { demoMainOS with spawner := spawnFailOS }

/-- Sample Spawner-side oracle where `waitpid` fails. -/
def waitFailOS : SpawnerOS :=
  { demoSpawnerOS with waitOk := false }

/-- Sample Coordinator-side oracle over the failing-`waitpid` Spawner. -/
def waitFailMainOS : MainOS :=
  { demoMainOS with spawner := waitFailOS }

/-- Sample child-side oracle where `execve` fails. -/
def execFailOS : ChildOS :=
  { demoChildOS with execOk := false }

/-- Sample Spawner-side oracle whose target program is killed by signal 9. -/
def signaledSpawnerOS : SpawnerOS :=
  { demoSpawnerOS with execedStatus := encodeSignaled 9 }

/-- Sample Coordinator-side oracle over the killed-by-signal run. -/
def signaledMainOS : MainOS :=
  { demoMainOS with spawner := signaledSpawnerOS }

theorem sigStep_of_queryFail (os : ChildOS) (d : Nat → Handler) (i : Nat)
    (h : os.queryOk i = false) : sigStep os d i = some d := by
  simp [sigStep, h]

theorem sigStep_keep (os : ChildOS) (d : Nat → Handler) (i : Nat)
    (hq : os.queryOk i = true)
    (hid : d i = Handler.SIG_IGN ∨ d i = Handler.SIG_DFL) :
    sigStep os d i = some d := by
  rcases hid with h | h <;> simp [sigStep, hq, h]

theorem sigStep_set (os : ChildOS) (d : Nat → Handler) (i : Nat)
    (hq : os.queryOk i = true)
    (h1 : d i ≠ Handler.SIG_IGN) (h2 : d i ≠ Handler.SIG_DFL)
    (hs : os.setErr i = none) :
    sigStep os d i = some (fun j => if j = i then Handler.SIG_DFL else d j) := by
  simp [sigStep, hq, h1, h2, hs]

theorem sigStep_einval (os : ChildOS) (d : Nat → Handler) (i : Nat)
    (hq : os.queryOk i = true)
    (h1 : d i ≠ Handler.SIG_IGN) (h2 : d i ≠ Handler.SIG_DFL)
    (hs : os.setErr i = some EINVAL) :
    sigStep os d i = some d := by
  simp [sigStep, hq, h1, h2, hs]

theorem sigStep_eq_none_iff (os : ChildOS) (d : Nat → Handler) (i : Nat) :
    sigStep os d i = none ↔ FatalAt os d i := by
  unfold sigStep FatalAt
  split_ifs with hq hc hs he <;> simp_all <;> tauto

theorem sigStep_apply_ne (os : ChildOS) (d d1 : Nat → Handler) (j : Nat)
    (h : sigStep os d j = some d1) (i : Nat) (hij : i ≠ j) : d1 i = d i := by
  unfold sigStep at h
  split_ifs at h <;> first
    | (injection h with h; subst h; simp [hij])
    | (injection h with h; subst h; rfl)
    | exact Option.noConfusion h

theorem FatalAt_congr (os : ChildOS) (d d1 : Nat → Handler) (i : Nat)
    (h : d1 i = d i) : FatalAt os d1 i ↔ FatalAt os d i := by
  unfold FatalAt; rw [h]

theorem resetLoop_fst_queryFail (os : ChildOS) :
    ∀ (l : List Nat) (d : Nat → Handler) (i : Nat), os.queryOk i = false →
      (resetLoop os l d).1 i = d i := by
  intro l
  induction l with
  | nil => intro d i _; rfl
  | cons j rest ih =>
    intro d i h
    cases hstep : sigStep os d j with
    | none => simp [resetLoop, hstep]
    | some d1 =>
      by_cases hij : i = j
      · subst hij
        have hd1 : d1 = d := by
          have := sigStep_of_queryFail os d i h
          rw [this] at hstep; injection hstep with h2; exact h2.symm
        simp only [resetLoop, hstep]
        rw [ih d1 i h, hd1]
      · have hd1 : d1 i = d i := sigStep_apply_ne os d d1 j hstep i hij
        simp only [resetLoop, hstep]
        rw [ih d1 i h, hd1]

theorem resetLoop_fst_not_mem (os : ChildOS) :
    ∀ (l : List Nat) (d : Nat → Handler) (i : Nat), i ∉ l →
      (resetLoop os l d).1 i = d i := by
  intro l
  induction l with
  | nil => intro d i _; rfl
  | cons j rest ih =>
    intro d i h
    have hij : i ≠ j := fun hc => h (hc ▸ List.mem_cons_self j rest)
    have hirest : i ∉ rest := fun hc => h (List.mem_cons_of_mem j hc)
    cases hstep : sigStep os d j with
    | none => simp [resetLoop, hstep]
    | some d1 =>
      have hd1 : d1 i = d i := sigStep_apply_ne os d d1 j hstep i hij
      simp only [resetLoop, hstep]
      rw [ih d1 i hirest, hd1]

theorem resetLoop_snd_cases (os : ChildOS) :
    ∀ (l : List Nat) (d : Nat → Handler),
      (resetLoop os l d).2 = none ∨ (resetLoop os l d).2 = some 2 := by
  intro l
  induction l with
  | nil => intro d; left; rfl
  | cons j rest ih =>
    intro d
    cases hstep : sigStep os d j with
    | none => right; simp [resetLoop, hstep]
    | some d1 => simpa only [resetLoop, hstep] using ih d1

theorem resetLoop_complete_spec (os : ChildOS) :
    ∀ (l : List Nat) (d d' : Nat → Handler), l.Nodup →
      resetLoop os l d = (d', none) →
      ∀ i ∈ l,
        (os.queryOk i = true → (d i = Handler.SIG_IGN ∨ d i = Handler.SIG_DFL) →
          d' i = d i)
        ∧ (os.queryOk i = true → d i ≠ Handler.SIG_IGN → d i ≠ Handler.SIG_DFL →
            (os.setErr i = none ∧ d' i = Handler.SIG_DFL)
            ∨ (os.setErr i = some EINVAL ∧ d' i = d i)) := by
  intro l
  induction l with
  | nil => intro d d' _ _ i hi; cases hi
  | cons j rest ih =>
    intro d d' hnd hrun i hi
    obtain ⟨hjrest, hndrest⟩ := List.nodup_cons.mp hnd
    cases hstep : sigStep os d j with
    | none => simp [resetLoop, hstep] at hrun
    | some d1 =>
      simp only [resetLoop, hstep] at hrun
      rcases List.mem_cons.mp hi with rfl | hirest
      · have hd' : d' i = d1 i := by
          have h := resetLoop_fst_not_mem os rest d1 i hjrest
          rw [hrun] at h; exact h
        constructor
        · intro hq hid
          have hk : sigStep os d i = some d := sigStep_keep os d i hq hid
          rw [hk] at hstep; injection hstep with h2
          rw [hd', ← h2]
        · intro hq h1 h2
          cases hse : os.setErr i with
          | none =>
            left
            refine ⟨rfl, ?_⟩
            have hk := sigStep_set os d i hq h1 h2 hse
            rw [hk] at hstep; injection hstep with h3
            rw [hd', ← h3]; simp
          | some e =>
            by_cases he : e = EINVAL
            · subst he
              right
              refine ⟨rfl, ?_⟩
              have hk := sigStep_einval os d i hq h1 h2 hse
              rw [hk] at hstep; injection hstep with h3
              rw [hd', ← h3]
            · exfalso
              have hfat : FatalAt os d i := by
                refine ⟨hq, h1, h2, ?_, ?_⟩ <;> simp [hse, he]
              have := (sigStep_eq_none_iff os d i).mpr hfat
              rw [this] at hstep; exact Option.noConfusion hstep
      · have hij : i ≠ j := fun hc => hjrest (hc ▸ hirest)
        have hd1 : d1 i = d i := sigStep_apply_ne os d d1 j hstep i hij
        have h := ih d1 d' hndrest hrun i hirest
        rw [hd1] at h
        exact h

theorem resetLoop_err_of_fatal (os : ChildOS) :
    ∀ (l : List Nat) (d : Nat → Handler), l.Nodup →
      (∃ i ∈ l, FatalAt os d i) → (resetLoop os l d).2 = some 2 := by
  intro l
  induction l with
  | nil => intro d _ h; obtain ⟨i, hi, _⟩ := h; cases hi
  | cons j rest ih =>
    intro d hnd h
    obtain ⟨hjrest, hndrest⟩ := List.nodup_cons.mp hnd
    obtain ⟨i, hi, hfat⟩ := h
    cases hstep : sigStep os d j with
    | none => simp [resetLoop, hstep]
    | some d1 =>
      simp only [resetLoop, hstep]
      rcases List.mem_cons.mp hi with rfl | hirest
      · exfalso
        have := (sigStep_eq_none_iff os d i).mpr hfat
        rw [this] at hstep; exact Option.noConfusion hstep
      · have hij : i ≠ j := fun hc => hjrest (hc ▸ hirest)
        have hd1 : d1 i = d i := sigStep_apply_ne os d d1 j hstep i hij
        exact ih d1 hndrest ⟨i, hirest, (FatalAt_congr os d d1 i hd1).mpr hfat⟩

theorem resetLoop_fatal_of_err (os : ChildOS) :
    ∀ (l : List Nat) (d : Nat → Handler), l.Nodup →
      (resetLoop os l d).2 = some 2 → ∃ i ∈ l, FatalAt os d i := by
  intro l
  induction l with
  | nil => intro d _ h; exact absurd h (by simp [resetLoop])
  | cons j rest ih =>
    intro d hnd h
    obtain ⟨hjrest, hndrest⟩ := List.nodup_cons.mp hnd
    cases hstep : sigStep os d j with
    | none =>
      exact ⟨j, List.mem_cons_self j rest,
        (sigStep_eq_none_iff os d j).mp hstep⟩
    | some d1 =>
      simp only [resetLoop, hstep] at h
      obtain ⟨i, hirest, hfat⟩ := ih d1 hndrest h
      have hij : i ≠ j := fun hc => hjrest (hc ▸ hirest)
      have hd1 : d1 i = d i := sigStep_apply_ne os d d1 j hstep i hij
      exact ⟨i, List.mem_cons_of_mem j hirest, (FatalAt_congr os d d1 i hd1).mp hfat⟩

theorem runChild_code_cases (os : ChildOS) (om bm : SigSet) (c : Nat)
    (h : (runChild os om bm).result = ChildResult.TerminatedWithCode c) :
    c = 1 ∨ c = 2 ∨ c = 3 := by
  unfold runChild at h
  by_cases hse : os.sigemptyset_ok = false
  · rw [if_pos hse] at h
    left; injection h with h2; exact h2.symm
  · rw [if_neg hse] at h
    rcases hloop : resetLoop os (List.range NSIG) os.disp with ⟨d1, e⟩
    rw [hloop] at h
    cases e with
    | some c2 =>
      have hcs := resetLoop_snd_cases os (List.range NSIG) os.disp
      rw [hloop] at hcs
      simp at h hcs
      omega
    | none =>
      have h2 : (execTail os d1 om).result = ChildResult.TerminatedWithCode c := h
      unfold execTail at h2
      by_cases hex : os.execOk = true
      · rw [if_pos hex] at h2
        exact absurd h2 (by simp)
      · rw [if_neg hex] at h2
        right; right; injection h2 with h3; exact h3.symm

theorem execTail_finalMask (os : ChildOS) (d1 : Nat → Handler) (om : SigSet) :
    (execTail os d1 om).finalMask = om := by
  unfold execTail; split_ifs <;> rfl

theorem execTail_result (os : ChildOS) (d1 : Nat → Handler) (om : SigSet) :
    (os.execOk = true → (execTail os d1 om).result = ChildResult.Replaced)
    ∧ (os.execOk = false → (execTail os d1 om).result = ChildResult.TerminatedWithCode 3) := by
  unfold execTail
  constructor <;> intro h <;> simp [h]

theorem execTail_finalDisp (os : ChildOS) (d1 : Nat → Handler) (om : SigSet) :
    (execTail os d1 om).finalDisp = d1 := by
  unfold execTail; split_ifs <;> rfl

theorem runChild_emptyFail (os : ChildOS) (om bm : SigSet) (h : os.sigemptyset_ok = false) :
    runChild os om bm =
      { result := ChildResult.TerminatedWithCode 1, finalDisp := os.disp, finalMask := bm } := by
  simp [runChild, h]

theorem runChild_loopDone (os : ChildOS) (om bm : SigSet) (d1 : Nat → Handler)
    (hse : os.sigemptyset_ok = true)
    (hloop : resetLoop os (List.range NSIG) os.disp = (d1, none)) :
    runChild os om bm = execTail os d1 om := by
  simp [runChild, hse, hloop]

theorem runChild_loopErr (os : ChildOS) (om bm : SigSet) (d1 : Nat → Handler) (c : Nat)
    (hse : os.sigemptyset_ok = true)
    (hloop : resetLoop os (List.range NSIG) os.disp = (d1, some c)) :
    runChild os om bm =
      { result := ChildResult.TerminatedWithCode c, finalDisp := d1, finalMask := bm } := by
  simp [runChild, hse, hloop]

theorem run_thread_vforkFail (os : SpawnerOS) (m : SigSet) (h : os.vforkOk = false) :
    run_thread os m =
      { outcome := SpawnerOutcome.SpawnFailed
        finalMask := m
        childRun := none
        childPid := none
        retval := none
        trace := [Event.maskBlockAll, Event.vforkEv, Event.maskRestore,
                  Event.perrorVfork, Event.exitEv EXIT_FAILURE] } := by
  simp [run_thread, h]

theorem run_thread_waitFail (os : SpawnerOS) (m : SigSet)
    (hv : os.vforkOk = true) (hw : os.waitOk = false) :
    run_thread os m =
      { outcome := SpawnerOutcome.WaitFailed
        finalMask := m
        childRun := some (runChild os.childOS m (sigBlock m fillMask))
        childPid := some os.childPid
        retval := none
        trace := [Event.maskBlockAll, Event.vforkEv, Event.maskRestore,
                  Event.waitpidEv os.childPid, Event.perrorWait,
                  Event.exitEv EXIT_FAILURE] } := by
  simp [run_thread, hv, hw]

theorem run_thread_ok (os : SpawnerOS) (m : SigSet)
    (hv : os.vforkOk = true) (hw : os.waitOk = true) :
    run_thread os m =
      { outcome := SpawnerOutcome.Done
          (decodeStatus (waitStatus os (runChild os.childOS m (sigBlock m fillMask))))
        finalMask := m
        childRun := some (runChild os.childOS m (sigBlock m fillMask))
        childPid := some os.childPid
        retval := none
        trace := [Event.maskBlockAll, Event.vforkEv, Event.maskRestore,
                  Event.waitpidEv os.childPid]
                 ++ printEvents (waitStatus os (runChild os.childOS m (sigBlock m fillMask))) } := by
  simp [run_thread, hv, hw]

theorem printEvents_no_restore (s : Nat) : countRestore (printEvents s) = 0 := by
  unfold printEvents
  split_ifs <;> rfl

theorem printEvents_no_wait (s : Nat) : countWait (printEvents s) = 0 := by
  unfold printEvents
  split_ifs <;> rfl

theorem countRestore_append (a b : List Event) :
    countRestore (a ++ b) = countRestore a + countRestore b := by
  simp [countRestore, List.filter_append]

theorem countWait_append (a b : List Event) :
    countWait (a ++ b) = countWait a + countWait b := by
  simp [countWait, List.filter_append]

theorem main_run_createFail (os : MainOS) (h : os.createOk = false) :
    main_run os =
      { exitCode := EXIT_FAILURE
        trace := [MEvent.createEv, MEvent.createErrMsg]
        threadResult := none } := by
  simp [main_run, h]

theorem main_run_spawnFail (os : MainOS) (hc : os.createOk = true)
    (h : (run_thread os.spawner os.initMask).outcome = SpawnerOutcome.SpawnFailed) :
    main_run os =
      { exitCode := EXIT_FAILURE
        trace := [MEvent.createEv]
        threadResult := some (run_thread os.spawner os.initMask) } := by
  simp [main_run, hc, h]

theorem main_run_waitFail (os : MainOS) (hc : os.createOk = true)
    (h : (run_thread os.spawner os.initMask).outcome = SpawnerOutcome.WaitFailed) :
    main_run os =
      { exitCode := EXIT_FAILURE
        trace := [MEvent.createEv]
        threadResult := some (run_thread os.spawner os.initMask) } := by
  simp [main_run, hc, h]

theorem main_run_joinFail (os : MainOS) (hc : os.createOk = true) (hj : os.joinOk = false)
    (rep : Option ExitStatus)
    (h : (run_thread os.spawner os.initMask).outcome = SpawnerOutcome.Done rep) :
    main_run os =
      { exitCode := EXIT_FAILURE
        trace := [MEvent.createEv, MEvent.joinEv, MEvent.joinErrMsg]
        threadResult := some (run_thread os.spawner os.initMask) } := by
  simp [main_run, hc, hj, h]

theorem main_run_allOk (os : MainOS) (hc : os.createOk = true) (hj : os.joinOk = true)
    (rep : Option ExitStatus)
    (h : (run_thread os.spawner os.initMask).outcome = SpawnerOutcome.Done rep) :
    main_run os =
      { exitCode := EXIT_SUCCESS
        trace := [MEvent.createEv, MEvent.joinEv]
        threadResult := some (run_thread os.spawner os.initMask) } := by
  simp [main_run, hc, hj, h]

theorem wifexited_exit (c : Nat) : wifexited (encodeExit c) = true := by
  unfold wifexited wtermsig encodeExit
  rw [decide_eq_true_eq]
  omega

theorem wexitstatus_exit (c : Nat) (hc : c ≤ 255) : wexitstatus (encodeExit c) = c := by
  unfold wexitstatus encodeExit
  omega

theorem wifexited_signaled (s : Nat) (h : 1 ≤ s % 128) :
    wifexited (encodeSignaled s) = false := by
  unfold wifexited wtermsig encodeSignaled
  simp only [decide_eq_false_iff_not]
  omega

theorem wifsignaled_signaled (s : Nat) (h1 : 1 ≤ s % 128) (h2 : s % 128 ≤ 126) :
    wifsignaled (encodeSignaled s) = true := by
  unfold wifsignaled encodeSignaled
  rw [decide_eq_true_eq]
  rw [if_pos (by omega : s % 128 % 128 + 1 < 128)]
  omega

theorem wtermsig_signaled (s : Nat) : wtermsig (encodeSignaled s) = s % 128 := by
  unfold wtermsig encodeSignaled
  omega

theorem runChild_replaced_mask (os : ChildOS) (om bm : SigSet)
    (h : (runChild os om bm).result = ChildResult.Replaced) :
    (runChild os om bm).finalMask = om := by
  cases hse : os.sigemptyset_ok with
  | false =>
    rw [runChild_emptyFail os om bm hse] at h
    exact absurd h (by simp)
  | true =>
    rcases hloop : resetLoop os (List.range NSIG) os.disp with ⟨d1, e⟩
    cases e with
    | some c =>
      rw [runChild_loopErr os om bm d1 c hse hloop] at h
      exact absurd h (by simp)
    | none =>
      rw [runChild_loopDone os om bm d1 hse hloop]
      exact execTail_finalMask os d1 om

/-- C1: on every exit path of the Spawner thread body — `vfork` failure, reap
    failure, and the success path — the saved `old_signal_mask` is restored
    exactly once, so the thread's signal mask when `run_thread` finishes
    equals the mask captured on entry; and whenever the child continuation
    reached image replacement, its own mask had been restored to that same
    captured mask beforehand. -/
theorem C1_mask_restored (os : SpawnerOS) (m : SigSet) :
    (run_thread os m).finalMask = m
    ∧ countRestore (run_thread os m).trace = 1
    ∧ (∀ cr, (run_thread os m).childRun = some cr →
        cr.result = ChildResult.Replaced → cr.finalMask = m) := by
  cases hv : os.vforkOk with
  | false =>
    rw [run_thread_vforkFail os m hv]
    exact ⟨rfl, rfl, fun cr hcr _ => Option.noConfusion hcr⟩
  | true =>
    cases hw : os.waitOk with
    | false =>
      rw [run_thread_waitFail os m hv hw]
      refine ⟨rfl, rfl, fun cr hcr hrep => ?_⟩
      injection hcr with hcr
      rw [← hcr] at hrep ⊢
      exact runChild_replaced_mask os.childOS m (sigBlock m fillMask) hrep
    | true =>
      rw [run_thread_ok os m hv hw]
      refine ⟨rfl, ?_, fun cr hcr hrep => ?_⟩
      · rw [countRestore_append, printEvents_no_restore]
        rfl
      · injection hcr with hcr
        rw [← hcr] at hrep ⊢
        exact runChild_replaced_mask os.childOS m (sigBlock m fillMask) hrep

/-- C1 witness: at a concrete all-success oracle with initial mask
    `[2, 15]`, the Spawner's final mask is `[2, 15]`, the trace holds one
    restoration, and the replaced child's mask is `[2, 15]`. -/
theorem C1_mask_restored_witness :
    (run_thread demoSpawnerOS demoMask).finalMask = demoMask
    ∧ countRestore (run_thread demoSpawnerOS demoMask).trace = 1
    ∧ (runChild demoChildOS demoMask (sigBlock demoMask fillMask)).finalMask = demoMask :=
  ⟨(C1_mask_restored demoSpawnerOS demoMask).1,
   (C1_mask_restored demoSpawnerOS demoMask).2.1,
   (C1_mask_restored demoSpawnerOS demoMask).2.2
     (runChild demoChildOS demoMask (sigBlock demoMask fillMask)) rfl (by decide)⟩

/-- C2 counterexample: with an oracle on which the disposition query for
    signal 10 fails and everything else succeeds, the child does not
    terminate with reserved code 1 — it skips the signal, completes the loop
    and replaces its image — refuting the claim that a failed query
    terminates the child with code 1. -/
theorem C2_counterexample :
    queryFailOS.queryOk 10 = false
    ∧ (runChild queryFailOS demoMask (sigBlock demoMask fillMask)).result
        = ChildResult.Replaced
    ∧ ¬ (runChild queryFailOS demoMask (sigBlock demoMask fillMask)).result
        = ChildResult.TerminatedWithCode 1 := by
  refine ⟨by decide, by decide, by decide⟩

/-- C2 (amended): every signal number in `[0, NSIG)` is queried, but a failed
    query only causes that signal to be skipped (its disposition is left
    untouched and the loop continues); reserved exit code 1 is produced
    exactly when building the empty-mask template (`sigemptyset`) fails,
    before the loop. -/
theorem C2_amended_query_skip (os : ChildOS) (om bm : SigSet) :
    (os.sigemptyset_ok = false →
      (runChild os om bm).result = ChildResult.TerminatedWithCode 1)
    ∧ (os.sigemptyset_ok = true →
      (runChild os om bm).result ≠ ChildResult.TerminatedWithCode 1)
    ∧ (∀ i, os.queryOk i = false → (runChild os om bm).finalDisp i = os.disp i) := by
  refine ⟨fun hse => ?_, fun hse => ?_, fun i hqi => ?_⟩
  · rw [runChild_emptyFail os om bm hse]
  · rcases hloop : resetLoop os (List.range NSIG) os.disp with ⟨d1, e⟩
    cases e with
    | some c =>
      have hcs := resetLoop_snd_cases os (List.range NSIG) os.disp
      rw [hloop] at hcs
      have hc2 : c = 2 := by
        rcases hcs with h3 | h3
        · exact absurd h3 (by simp)
        · injection h3
      rw [runChild_loopErr os om bm d1 c hse hloop, hc2]
      simp
    | none =>
      rw [runChild_loopDone os om bm d1 hse hloop]
      unfold execTail
      split_ifs <;> simp
  · cases hse : os.sigemptyset_ok with
    | false => rw [runChild_emptyFail os om bm hse]
    | true =>
      have hfst := resetLoop_fst_queryFail os (List.range NSIG) os.disp i hqi
      rcases hloop : resetLoop os (List.range NSIG) os.disp with ⟨d1, e⟩
      rw [hloop] at hfst
      cases e with
      | some c => rw [runChild_loopErr os om bm d1 c hse hloop]; exact hfst
      | none =>
        rw [runChild_loopDone os om bm d1 hse hloop, execTail_finalDisp]
        exact hfst

/-- C2 (amended) witness: with `sigemptyset` failing the child terminates
    with code 1, and at the query-failure oracle signal 10 keeps its custom
    handler untouched. -/
theorem C2_amended_witness :
    (runChild emptySetFailOS demoMask (sigBlock demoMask fillMask)).result
      = ChildResult.TerminatedWithCode 1
    ∧ (runChild queryFailOS demoMask (sigBlock demoMask fillMask)).finalDisp 10
      = queryFailOS.disp 10 :=
  ⟨(C2_amended_query_skip emptySetFailOS demoMask (sigBlock demoMask fillMask)).1 rfl,
   (C2_amended_query_skip queryFailOS demoMask (sigBlock demoMask fillMask)).2.2 10 (by decide)⟩

/-- C3: when the reset loop runs to completion, for every signal in
    `[0, NSIG)` whose query succeeded, a `SIG_IGN` disposition is left
    untouched, and a custom-handler disposition (neither `SIG_IGN` nor
    `SIG_DFL`) is rewritten to `SIG_DFL` unless the OS reported it
    unchangeable (`EINVAL`), in which case it is skipped and keeps its
    OS-enforced value; the dispositions the child carries into `execve` are
    exactly the loop's output. -/
theorem C3_reset_normalizes (os : ChildOS) (om bm : SigSet) (d1 : Nat → Handler)
    (hse : os.sigemptyset_ok = true)
    (hloop : resetLoop os (List.range NSIG) os.disp = (d1, none)) :
    (runChild os om bm).finalDisp = d1
    ∧ ∀ i, i < NSIG → os.queryOk i = true →
        ((os.disp i = Handler.SIG_IGN → d1 i = Handler.SIG_IGN)
         ∧ (os.disp i ≠ Handler.SIG_IGN → os.disp i ≠ Handler.SIG_DFL →
             (os.setErr i = none ∧ d1 i = Handler.SIG_DFL)
             ∨ (os.setErr i = some EINVAL ∧ d1 i = os.disp i))) := by
  constructor
  · rw [runChild_loopDone os om bm d1 hse hloop]
    exact execTail_finalDisp os d1 om
  · intro i hi hq
    have hmem : i ∈ List.range NSIG := List.mem_range.mpr hi
    have h := resetLoop_complete_spec os (List.range NSIG) os.disp d1
      (List.nodup_range NSIG) hloop i hmem
    refine ⟨fun hign => ?_, fun h1 h2 => h.2 hq h1 h2⟩
    rw [h.1 hq (Or.inl hign), hign]

/-- C3 witness: at the sample oracle the custom handler on signal 10 ends up
    `SIG_DFL`, the unchangeable (EINVAL) signal 9 keeps its custom handler,
    and the ignored signal 17 stays `SIG_IGN`. -/
theorem C3_witness :
    (runChild demoChildOS demoMask (sigBlock demoMask fillMask)).finalDisp 10
      = Handler.SIG_DFL
    ∧ (resetLoop demoChildOS (List.range NSIG) demoChildOS.disp).1 9 = Handler.custom 3
    ∧ (resetLoop demoChildOS (List.range NSIG) demoChildOS.disp).1 17 = Handler.SIG_IGN := by
  have hsnd : (resetLoop demoChildOS (List.range NSIG) demoChildOS.disp).2 = none := by
    decide
  have hloop : resetLoop demoChildOS (List.range NSIG) demoChildOS.disp
      = ((resetLoop demoChildOS (List.range NSIG) demoChildOS.disp).1, none) := by
    rw [← hsnd]
  have h := C3_reset_normalizes demoChildOS demoMask (sigBlock demoMask fillMask)
    (resetLoop demoChildOS (List.range NSIG) demoChildOS.disp).1 rfl hloop
  refine ⟨?_, ?_, ?_⟩
  · rw [congrFun h.1 10]
    decide
  · have h9 := (h.2 9 (by decide) (by decide)).2 (by decide) (by decide)
    rcases h9 with ⟨hn, _⟩ | ⟨_, hd⟩
    · exact absurd hn (by decide)
    · rw [hd]; decide
  · have h17 := (h.2 17 (by decide) (by decide)).1 (by decide)
    exact h17

/-- C4: the child terminates with reserved code 2 exactly when some signal in
    `[0, NSIG)` has a successfully queried custom-handler disposition whose
    reset to `SIG_DFL` the OS refuses with an errno other than `EINVAL`; when
    every set failure is of the `EINVAL` kind the loop skips them and runs on
    to `execve` (image replaced, or code 3 on `execve` failure). -/
theorem C4_einval_tolerated (os : ChildOS) (om bm : SigSet)
    (hse : os.sigemptyset_ok = true) :
    ((runChild os om bm).result = ChildResult.TerminatedWithCode 2
      ↔ ∃ i, i < NSIG ∧ FatalAt os os.disp i)
    ∧ ((∀ i, i < NSIG → ¬ FatalAt os os.disp i) →
        (runChild os om bm).result = ChildResult.Replaced
        ∨ (runChild os om bm).result = ChildResult.TerminatedWithCode 3) := by
  rcases hloop : resetLoop os (List.range NSIG) os.disp with ⟨d1, e⟩
  cases e with
  | some c =>
    have hcs := resetLoop_snd_cases os (List.range NSIG) os.disp
    rw [hloop] at hcs
    have hc2 : c = 2 := by
      rcases hcs with h3 | h3
      · exact absurd h3 (by simp)
      · injection h3
    subst hc2
    have hfatal := resetLoop_fatal_of_err os (List.range NSIG) os.disp
      (List.nodup_range NSIG) (by rw [hloop])
    obtain ⟨i, hmem, hfat⟩ := hfatal
    constructor
    · rw [runChild_loopErr os om bm d1 2 hse hloop]
      exact ⟨fun _ => ⟨i, List.mem_range.mp hmem, hfat⟩, fun _ => rfl⟩
    · intro hnone
      exact absurd hfat (hnone i (List.mem_range.mp hmem))
  | none =>
    rw [runChild_loopDone os om bm d1 hse hloop]
    constructor
    · constructor
      · intro h
        rcases (execTail_result os d1 om) with ⟨hrep, hfail⟩
        cases hex : os.execOk with
        | true => rw [hrep hex] at h; exact absurd h (by simp)
        | false => rw [hfail hex] at h; exact absurd h (by simp)
      · intro h
        obtain ⟨i, hi, hfat⟩ := h
        have := resetLoop_err_of_fatal os (List.range NSIG) os.disp
          (List.nodup_range NSIG) ⟨i, List.mem_range.mpr hi, hfat⟩
        rw [hloop] at this
        exact absurd this (by simp)
    · intro _
      cases hex : os.execOk with
      | true => exact Or.inl ((execTail_result os d1 om).1 hex)
      | false => exact Or.inr ((execTail_result os d1 om).2 hex)

/-- C4 witness: at the oracle where resetting signal 10's custom handler
    fails with errno 13 (not `EINVAL`), the child terminates with reserved
    code 2. -/
theorem C4_witness :
    (runChild setFatalOS demoMask (sigBlock demoMask fillMask)).result
      = ChildResult.TerminatedWithCode 2 :=
  (C4_einval_tolerated setFatalOS demoMask (sigBlock demoMask fillMask) rfl).1.mpr
    ⟨10, by decide, by decide⟩

/-- C5: the decode step maps a raw status encoding a normal exit with code
    `c` (`0 ≤ c ≤ 255`) to `Exited c` and a raw status encoding termination
    by a valid signal `s` to `Signaled s`; and on the success path the
    Spawner reports exactly the decoded status of the raw status it reaped. -/
theorem C5_status_decode (c s : Nat) (hc : c ≤ 255) (hs1 : 1 ≤ s) (hs2 : s ≤ 64) :
    decodeStatus (encodeExit c) = some (ExitStatus.Exited c)
    ∧ decodeStatus (encodeSignaled s) = some (ExitStatus.Signaled s)
    ∧ ∀ (os : SpawnerOS) (m : SigSet), os.vforkOk = true → os.waitOk = true →
        (run_thread os m).outcome
          = SpawnerOutcome.Done
              (decodeStatus (waitStatus os (runChild os.childOS m (sigBlock m fillMask)))) := by
  refine ⟨?_, ?_, fun os m hv hw => ?_⟩
  · unfold decodeStatus
    rw [if_pos (wifexited_exit c), wexitstatus_exit c hc]
  · have hm : s % 128 = s := Nat.mod_eq_of_lt (by omega)
    unfold decodeStatus
    rw [if_neg (by rw [wifexited_signaled s (by omega)]; exact Bool.false_ne_true),
        if_pos (wifsignaled_signaled s (by omega) (by omega)),
        wtermsig_signaled, hm]
  · rw [run_thread_ok os m hv hw]

/-- C5 witness: status decoding at exit code 3 and at signal 9, and the
    concrete all-success Spawner reports the decoded reaped status. -/
theorem C5_witness :
    decodeStatus (encodeExit 3) = some (ExitStatus.Exited 3)
    ∧ decodeStatus (encodeSignaled 9) = some (ExitStatus.Signaled 9)
    ∧ (run_thread demoSpawnerOS demoMask).outcome
        = SpawnerOutcome.Done
            (decodeStatus (waitStatus demoSpawnerOS
              (runChild demoChildOS demoMask (sigBlock demoMask fillMask)))) :=
  ⟨(C5_status_decode 3 9 (by decide) (by decide) (by decide)).1,
   (C5_status_decode 3 9 (by decide) (by decide) (by decide)).2.1,
   (C5_status_decode 3 9 (by decide) (by decide) (by decide)).2.2
     demoSpawnerOS demoMask rfl rfl⟩

/-- C6: when `vfork` itself fails, the Spawner restores the captured mask and
    surfaces `SpawnFailed`, the process exits with `EXIT_FAILURE`, and no
    child pid is produced, no child continuation runs, and no reap is ever
    attempted. -/
theorem C6_spawn_failed (os : SpawnerOS) (m : SigSet) (h : os.vforkOk = false) :
    (run_thread os m).outcome = SpawnerOutcome.SpawnFailed
    ∧ (run_thread os m).finalMask = m
    ∧ (run_thread os m).childPid = none
    ∧ (run_thread os m).childRun = none
    ∧ countWait (run_thread os m).trace = 0
    ∧ Event.exitEv EXIT_FAILURE ∈ (run_thread os m).trace
    ∧ ∀ mos : MainOS, mos.createOk = true → mos.spawner = os →
        (main_run mos).exitCode = EXIT_FAILURE := by
  rw [run_thread_vforkFail os m h]
  refine ⟨rfl, rfl, rfl, rfl, rfl, by simp, fun mos hc hsp => ?_⟩
  have hout : (run_thread mos.spawner mos.initMask).outcome
      = SpawnerOutcome.SpawnFailed := by
    rw [hsp, run_thread_vforkFail os mos.initMask h]
  rw [main_run_spawnFail mos hc hout]

/-- C6 witness: at the failing-`vfork` oracle the outcome is `SpawnFailed`,
    no reap appears in the trace, and the process exits `EXIT_FAILURE`. -/
theorem C6_witness :
    (run_thread spawnFailOS demoMask).outcome = SpawnerOutcome.SpawnFailed
    ∧ (run_thread spawnFailOS demoMask).childPid = none
    ∧ countWait (run_thread spawnFailOS demoMask).trace = 0
    ∧ (main_run spawnFailMainOS).exitCode = EXIT_FAILURE :=
  ⟨(C6_spawn_failed spawnFailOS demoMask rfl).1,
   (C6_spawn_failed spawnFailOS demoMask rfl).2.2.1,
   (C6_spawn_failed spawnFailOS demoMask rfl).2.2.2.2.1,
   (C6_spawn_failed spawnFailOS demoMask rfl).2.2.2.2.2.2 spawnFailMainOS rfl rfl⟩

/-- C7: whenever `vfork` succeeds the Spawner performs the blocking reap
    exactly once; if the reap fails it surfaces `WaitFailed` without
    retrying and the process exits with `EXIT_FAILURE`. -/
theorem C7_wait_failed (os : SpawnerOS) (m : SigSet) (hv : os.vforkOk = true) :
    countWait (run_thread os m).trace = 1
    ∧ (os.waitOk = false →
        (run_thread os m).outcome = SpawnerOutcome.WaitFailed
        ∧ Event.exitEv EXIT_FAILURE ∈ (run_thread os m).trace
        ∧ ∀ mos : MainOS, mos.createOk = true → mos.spawner = os →
            (main_run mos).exitCode = EXIT_FAILURE) := by
  cases hw : os.waitOk with
  | false =>
    rw [run_thread_waitFail os m hv hw]
    refine ⟨rfl, fun _ => ⟨rfl, by simp, fun mos hc hsp => ?_⟩⟩
    have hout : (run_thread mos.spawner mos.initMask).outcome
        = SpawnerOutcome.WaitFailed := by
      rw [hsp, run_thread_waitFail os mos.initMask hv hw]
    rw [main_run_waitFail mos hc hout]
  | true =>
    rw [run_thread_ok os m hv hw]
    refine ⟨?_, fun hcontra => absurd hcontra (by simp [hw])⟩
    rw [countWait_append, printEvents_no_wait]
    rfl

/-- C7 witness: at the failing-`waitpid` oracle the reap is attempted exactly
    once, the outcome is `WaitFailed`, and the process exits `EXIT_FAILURE`. -/
theorem C7_witness :
    countWait (run_thread waitFailOS demoMask).trace = 1
    ∧ (run_thread waitFailOS demoMask).outcome = SpawnerOutcome.WaitFailed
    ∧ (main_run waitFailMainOS).exitCode = EXIT_FAILURE :=
  ⟨(C7_wait_failed waitFailOS demoMask rfl).1,
   ((C7_wait_failed waitFailOS demoMask rfl).2 rfl).1,
   ((C7_wait_failed waitFailOS demoMask rfl).2 rfl).2.2 waitFailMainOS rfl rfl⟩

/-- C8: after a successful setup (template built and reset loop completed)
    the child's last step is `execve`: the image is replaced iff `execve`
    succeeds, and on `execve` failure the child terminates immediately with
    reserved code 3; in all cases the child continuation ends in `Replaced`
    or in `_exit` with one of the reserved codes 1, 2, 3 — it never falls
    through to any other code path. -/
theorem C8_exec_last (os : ChildOS) (om bm : SigSet) :
    (∀ d1, os.sigemptyset_ok = true →
      resetLoop os (List.range NSIG) os.disp = (d1, none) →
      ((runChild os om bm).result = ChildResult.Replaced ↔ os.execOk = true)
      ∧ (os.execOk = false →
          (runChild os om bm).result = ChildResult.TerminatedWithCode 3))
    ∧ ∀ c, (runChild os om bm).result = ChildResult.TerminatedWithCode c →
        c = 1 ∨ c = 2 ∨ c = 3 := by
  constructor
  · intro d1 hse hloop
    rw [runChild_loopDone os om bm d1 hse hloop]
    refine ⟨⟨fun h => ?_, (execTail_result os d1 om).1⟩, (execTail_result os d1 om).2⟩
    cases hex : os.execOk with
    | true => rfl
    | false =>
      rw [(execTail_result os d1 om).2 hex] at h
      exact absurd h (by simp)
  · exact runChild_code_cases os om bm

/-- C8 witness: at the failing-`execve` oracle (with successful setup) the
    child terminates with reserved code 3. -/
theorem C8_witness :
    (runChild execFailOS demoMask (sigBlock demoMask fillMask)).result
      = ChildResult.TerminatedWithCode 3 := by
  have hsnd : (resetLoop execFailOS (List.range NSIG) execFailOS.disp).2 = none := by
    decide
  have hloop : resetLoop execFailOS (List.range NSIG) execFailOS.disp
      = ((resetLoop execFailOS (List.range NSIG) execFailOS.disp).1, none) := by
    rw [← hsnd]
  exact ((C8_exec_last execFailOS demoMask (sigBlock demoMask fillMask)).1
    (resetLoop execFailOS (List.range NSIG) execFailOS.disp).1 rfl hloop).2 rfl

/-- C9: the Coordinator calls `pthread_create` exactly once; a create failure
    is reported and the process exits `EXIT_FAILURE` with no join and no
    retry; when the thread was created and ran to completion the Coordinator
    joins exactly once and observes the thread's run; a join failure is
    reported and the process exits `EXIT_FAILURE` (no retry), otherwise the
    process exits `EXIT_SUCCESS`. -/
theorem C9_coordinator (mos : MainOS) :
    countCreate (main_run mos).trace = 1
    ∧ (mos.createOk = false →
        (main_run mos).exitCode = EXIT_FAILURE
        ∧ MEvent.createErrMsg ∈ (main_run mos).trace
        ∧ countJoin (main_run mos).trace = 0)
    ∧ (mos.createOk = true →
        ∀ rep, (run_thread mos.spawner mos.initMask).outcome = SpawnerOutcome.Done rep →
          countJoin (main_run mos).trace = 1
          ∧ (main_run mos).threadResult = some (run_thread mos.spawner mos.initMask)
          ∧ (mos.joinOk = false →
              (main_run mos).exitCode = EXIT_FAILURE
              ∧ MEvent.joinErrMsg ∈ (main_run mos).trace)
          ∧ (mos.joinOk = true → (main_run mos).exitCode = EXIT_SUCCESS)) := by
  cases hc : mos.createOk with
  | false =>
    rw [main_run_createFail mos hc]
    exact ⟨rfl, fun _ => ⟨rfl, by simp, rfl⟩,
      fun hcontra => absurd hcontra (by simp [hc])⟩
  | true =>
    cases hout : (run_thread mos.spawner mos.initMask).outcome with
    | SpawnFailed =>
      rw [main_run_spawnFail mos hc hout]
      exact ⟨rfl, fun hcontra => absurd hcontra (by simp [hc]),
        fun _ rep hrep => SpawnerOutcome.noConfusion hrep⟩
    | WaitFailed =>
      rw [main_run_waitFail mos hc hout]
      exact ⟨rfl, fun hcontra => absurd hcontra (by simp [hc]),
        fun _ rep hrep => SpawnerOutcome.noConfusion hrep⟩
    | Done rep0 =>
      cases hj : mos.joinOk with
      | false =>
        rw [main_run_joinFail mos hc hj rep0 hout]
        exact ⟨rfl, fun hcontra => absurd hcontra (by simp [hc]),
          fun _ _ _ => ⟨rfl, rfl, fun _ => ⟨rfl, by simp⟩,
            fun hcontra => absurd hcontra (by simp [hj])⟩⟩
      | true =>
        rw [main_run_allOk mos hc hj rep0 hout]
        exact ⟨rfl, fun hcontra => absurd hcontra (by simp [hc]),
          fun _ _ _ => ⟨rfl, rfl,
            fun hcontra => absurd hcontra (by simp [hj]), fun _ => rfl⟩⟩

/-- C9 witness: at the concrete all-success oracle, `pthread_create` and
    `pthread_join` each appear exactly once and the process exits
    `EXIT_SUCCESS`. -/
theorem C9_witness :
    countCreate (main_run demoMainOS).trace = 1
    ∧ countJoin (main_run demoMainOS).trace = 1
    ∧ (main_run demoMainOS).exitCode = EXIT_SUCCESS :=
  ⟨(C9_coordinator demoMainOS).1,
   ((C9_coordinator demoMainOS).2.2 rfl (some (ExitStatus.Exited 0)) (by decide)).1,
   ((C9_coordinator demoMainOS).2.2 rfl (some (ExitStatus.Exited 0)) (by decide)).2.2.2 rfl⟩

/-- C10: whenever thread creation, the spawn, the reap (and the join) all
    succeed, the process exits `EXIT_SUCCESS` regardless of the child's
    decoded status: the Spawner thread only prints the decoded status and
    returns `NULL`, never propagating it to the Coordinator's exit code. -/
theorem C10_success_regardless (mos : MainOS)
    (hc : mos.createOk = true) (hv : mos.spawner.vforkOk = true)
    (hw : mos.spawner.waitOk = true) (hj : mos.joinOk = true) :
    (main_run mos).exitCode = EXIT_SUCCESS
    ∧ (run_thread mos.spawner mos.initMask).retval = none
    ∧ (run_thread mos.spawner mos.initMask).outcome
        = SpawnerOutcome.Done (decodeStatus (waitStatus mos.spawner
            (runChild mos.spawner.childOS mos.initMask (sigBlock mos.initMask fillMask)))) := by
  have hout : (run_thread mos.spawner mos.initMask).outcome
      = SpawnerOutcome.Done (decodeStatus (waitStatus mos.spawner
          (runChild mos.spawner.childOS mos.initMask (sigBlock mos.initMask fillMask)))) := by
    rw [run_thread_ok mos.spawner mos.initMask hv hw]
  refine ⟨?_, ?_, hout⟩
  · rw [main_run_allOk mos hc hj _ hout]
  · rw [run_thread_ok mos.spawner mos.initMask hv hw]

/-- C10 witness: at an oracle whose target program is killed by signal 9, and
    at one whose `execve` fails (child exits with reserved code 3), the
    process still exits `EXIT_SUCCESS`. -/
theorem C10_witness :
    (main_run signaledMainOS).exitCode = EXIT_SUCCESS
    ∧ (run_thread signaledSpawnerOS demoMask).retval = none :=
  ⟨(C10_success_regardless signaledMainOS rfl rfl rfl rfl).1,
   (C10_success_regardless signaledMainOS rfl rfl rfl rfl).2.1⟩

end SafeVfork
